import Mathlib

/-!
Shallow embedding of the core of the clara_confirms_backend repository:
the auth middleware (token verification, identity resolution and cache,
tenant guard) and the per-company ServiceTrade session manager.

JavaScript conventions are modelled explicitly:
* optional / nullable string values are Option String;
* JS truthiness of a string value (undefined, null and the empty string
  are falsy) is the predicate truthy;
* a JS Map is an association list in insertion order: set on an existing
  key updates it in place, set on a fresh key appends, delete removes the
  (unique) key, and iteration order is list order, so keys().next().value
  is the head key.
Asynchronous functions are embedded as pure functions that thread the
mutable state (caches, the user store, the fetch counter) explicitly.
-/

set_option maxRecDepth 8192

namespace ClaraConfirms

/-- Truthiness of a JS string value: undefined/null and the empty string
are falsy, every other string is truthy. -/
def truthy : Option String → Bool
  | none => false
  | some s => s ≠ ""

/-- The JS expression a || b on string values: b when a is falsy. -/
def jsOr (a b : Option String) : Option String :=
  if truthy a then a else b

/-- Lookup in a JS Map modelled as an association list. -/
def mapGet {α : Type} : List (String × α) → String → Option α
  | [], _ => none
  | (k', v) :: rest, k => if k' = k then some v else mapGet rest k

/-- JS Map.set: update the existing key in place, else append. -/
def mapSet {α : Type} : List (String × α) → String → α → List (String × α)
  | [], k, v => [(k, v)]
  | (k', v') :: rest, k, v =>
    if k' = k then (k', v) :: rest else (k', v') :: mapSet rest k v

/-- JS Map.delete: remove the first (on reachable states: unique)
occurrence of the key. -/
def mapDelete {α : Type} : List (String × α) → String → List (String × α)
  | [], _ => []
  | (k', v') :: rest, k => if k' = k then rest else (k', v') :: mapDelete rest k

theorem mapGet_eq_none_of_not_mem {α : Type} (m : List (String × α)) (k : String)
    (h : k ∉ m.map Prod.fst) : mapGet m k = none := by
  induction m with
  | nil => rfl
  | cons hd tl ih =>
    obtain ⟨k', v'⟩ := hd
    simp only [List.map_cons, List.mem_cons] at h
    push_neg at h
    simp only [mapGet, if_neg (Ne.symm h.1)]
    exact ih h.2

theorem mapGet_mapDelete_self {α : Type} (m : List (String × α)) (k : String)
    (hnd : (m.map Prod.fst).Nodup) : mapGet (mapDelete m k) k = none := by
  induction m with
  | nil => rfl
  | cons hd tl ih =>
    obtain ⟨k', v'⟩ := hd
    simp only [List.map_cons, List.nodup_cons] at hnd
    by_cases hk : k' = k
    · subst hk
      simp only [mapDelete, if_pos rfl]
      exact mapGet_eq_none_of_not_mem tl k' hnd.1
    · simp only [mapDelete, if_neg hk, mapGet, if_neg hk]
      exact ih hnd.2

theorem mapSet_of_not_mem {α : Type} (m : List (String × α)) (k : String) (v : α)
    (h : mapGet m k = none) : mapSet m k v = m ++ [(k, v)] := by
  induction m with
  | nil => rfl
  | cons hd tl ih =>
    obtain ⟨k', v'⟩ := hd
    simp only [mapGet] at h
    by_cases hk : k' = k
    · simp [if_pos hk] at h
    · simp only [mapSet, if_neg hk, List.cons_append]
      rw [ih]
      simpa [if_neg hk] using h

theorem mapSet_length {α : Type} (m : List (String × α)) (k : String) (v : α) :
    (mapSet m k v).length ≤ m.length + 1 := by
  induction m with
  | nil => simp [mapSet]
  | cons hd tl ih =>
    obtain ⟨k', v'⟩ := hd
    simp only [mapSet]
    by_cases hk : k' = k
    · simp [if_pos hk]
    · simp only [if_neg hk, List.length_cons]
      omega

theorem mapDelete_length {α : Type} (m : List (String × α)) (k : String) :
    (mapDelete m k).length ≤ m.length := by
  induction m with
  | nil => simp [mapDelete]
  | cons hd tl ih =>
    obtain ⟨k', v'⟩ := hd
    simp only [mapDelete]
    by_cases hk : k' = k
    · simp [if_pos hk]
    · simp only [if_neg hk, List.length_cons]
      omega

/-! ## Data model: user records and the identity cache
(src auth middleware, module-level state) -/

/-- A row of the users table as read by the auth service: nullable
columns are Option String. -/
structure User where
  id : String
  email : Option String
  company_id : Option String
  role : Option String
  supabase_id : Option String
  password_hash : Option String
  deriving Repr, DecidableEq

/-- An identity-cache entry: the user snapshot and the insertion time
(Date.now in milliseconds). -/
structure CacheEntry where
  user : User
  timestamp : Nat
  deriving Repr, DecidableEq

/-- The in-memory Supabase user resolution cache (module-level Map). -/
abbrev Cache := List (String × CacheEntry)

def CACHE_TTL_MS : Nat := 5 * 60 * 1000

def CACHE_MAX_SIZE : Nat := 500

/-- getCachedUser: return the cached user, deleting and missing an entry
strictly older than the TTL.  Result: (returned user or none, cache after
the possible lazy eviction). -/
def getCachedUser (now : Nat) (cache : Cache) (supabaseUserId : String) :
    Option User × Cache :=
  match mapGet cache supabaseUserId with
  | none => (none, cache)
  | some entry =>
    if now - entry.timestamp > CACHE_TTL_MS then
      (none, mapDelete cache supabaseUserId)
    else
      (some entry.user, cache)

/-- setCachedUser: evict the oldest-inserted entry (the head key of the
Map) when the cache is at capacity, then insert. -/
def setCachedUser (now : Nat) (cache : Cache) (supabaseUserId : String)
    (user : User) : Cache :=
  let cache' :=
    if CACHE_MAX_SIZE ≤ cache.length then
      match cache with
      | [] => ([] : Cache)
      | (oldestKey, _) :: _ => mapDelete cache oldestKey
    else cache
  mapSet cache' supabaseUserId ⟨user, now⟩

/-- clearUserCache: delete one entry when a truthy id is supplied,
otherwise clear the whole cache. -/
def clearUserCache (cache : Cache) (supabaseUserId : Option String) : Cache :=
  if truthy supabaseUserId then mapDelete cache (supabaseUserId.getD "")
  else []

/-! ## The user store (auth.service collaborator)

Modelled from the spec: the auth.service module itself is not among the
source files; the spec (section 6, External Interfaces) specifies the user
store at its boundary as findByExternalId, findByEmail and
linkExternalId, each returning the User shape or absent.  The store is
instrumented with a read counter and a write log so that the theorems can
state that an operation performed no store read and which link writes it
performed. -/

structure Store where
  users : List User
  reads : Nat
  links : List (String × String)
  deriving Repr, DecidableEq

/-- Modelled from the spec: findByExternalId — look a user up by the
externalAuthId (supabase_id) column. -/
def getUserBySupabaseId (st : Store) (supabaseUserId : String) :
    Option User × Store :=
  (st.users.find? (fun u => u.supabase_id = some supabaseUserId),
   { st with reads := st.reads + 1 })

/-- Modelled from the spec: findByEmail — look a user up by the email
column. -/
def getUserByEmail (st : Store) (email : String) : Option User × Store :=
  (st.users.find? (fun u => u.email = some email),
   { st with reads := st.reads + 1 })

/-- Modelled from the spec: linkExternalId — persist
externalAuthId := externalSubjectId on the given user row. -/
def updateSupabaseId (st : Store) (userId supabaseUserId : String) : Store :=
  { st with
    users := st.users.map (fun u =>
      if u.id = userId then { u with supabase_id := some supabaseUserId } else u),
    links := st.links ++ [(userId, supabaseUserId)] }

/-- resolveSupabaseUser: cache, then store by supabase_id, then store by
email with implicit account linking.  Returns (resolved user or none,
cache after, store after). -/
def resolveSupabaseUser (now : Nat) (cache : Cache) (store : Store)
    (supabaseUserId : String) (email : Option String) :
    Option User × Cache × Store :=
  match getCachedUser now cache supabaseUserId with
  | (some cached, cache1) => (some cached, cache1, store)
  | (none, cache1) =>
    match getUserBySupabaseId store supabaseUserId with
    | (some user, store1) =>
      (some user, setCachedUser now cache1 supabaseUserId user, store1)
    | (none, store1) =>
      if truthy email then
        match getUserByEmail store1 (email.getD "") with
        | (some user, store2) =>
          if truthy user.supabase_id then
            (some user, setCachedUser now cache1 supabaseUserId user, store2)
          else
            let linked := { user with supabase_id := some supabaseUserId }
            (some linked, setCachedUser now cache1 supabaseUserId linked,
             updateSupabaseId store2 user.id supabaseUserId)
        | (none, store2) => (none, cache1, store2)
      else (none, cache1, store1)

/-! ## Token verification (jwt.verify is an oracle)

jwt.verify with a fixed secret is embedded as an oracle
String → Except Unit Claims supplied as a parameter: an .error result
stands for the exception thrown on a bad signature, an expired token or
undecodable input, and an .ok result for the decoded payload of a token
correctly signed with that secret. -/

/-- Payload of a locally issued (custom) JWT; absent claims are none. -/
structure CustomClaims where
  type : Option String
  userId : Option String
  email : Option String
  companyId : Option String
  role : Option String
  deriving Repr, DecidableEq

/-- Payload of a Supabase JWT; absent claims are none. -/
structure SupaClaims where
  sub : Option String
  email : Option String
  deriving Repr, DecidableEq

/-- verifyCustomToken: signature check against the own secret (the
oracle), then the shape check type = access and truthy userId and
companyId; every failure, including a thrown verification error, is
caught and mapped to none. -/
def verifyCustomToken (verify : String → Except Unit CustomClaims)
    (token : String) : Option CustomClaims :=
  match verify token with
  | .error _ => none
  | .ok decoded =>
    if decoded.type = some "access" ∧ truthy decoded.userId = true ∧
        truthy decoded.companyId = true then
      some decoded
    else none

/-- verifySupabaseToken: none when the Supabase secret is unconfigured;
otherwise signature check via the oracle and a truthy sub claim. -/
def verifySupabaseToken (jwtSecretConfigured : Bool)
    (verify : String → Except Unit SupaClaims) (token : String) :
    Option SupaClaims :=
  if jwtSecretConfigured = false then none
  else
    match verify token with
    | .error _ => none
    | .ok decoded => if truthy decoded.sub = true then some decoded else none

/-! ## Auth middleware -/

/-- The principal attached to the request as req.user. -/
structure Principal where
  userId : Option String
  email : Option String
  companyId : Option String
  role : Option String
  deriving Repr, DecidableEq

/-- Terminal outcome of a middleware unit: an HTTP rejection, or next()
with the value left in req.user. -/
inductive MwOutcome where
  | reject (status : Nat) (msg : String)
  | next (user : Option Principal)
  deriving Repr, DecidableEq

/-- The part of the Express request the auth middleware reads. -/
structure Req where
  authorization : Option String
  deriving Repr, DecidableEq

/-- Static configuration and the two jwt.verify oracles. -/
structure AuthEnv where
  verifyCustom : String → Except Unit CustomClaims
  supaConfigured : Bool
  verifySupa : String → Except Unit SupaClaims

/-- One string is an initial segment of another, computed structurally on
the character lists (the JS String.startsWith check). -/
def charsPre : List Char → List Char → Bool
  | [], _ => true
  | _ :: _, [] => false
  | c :: cs, d :: ds => c = d && charsPre cs ds

def strStartsWith (s pre : String) : Bool :=
  charsPre pre.data s.data

/-- The header gate: authHeader truthy and starting with the Bearer
marker. -/
def hasBearer (h : Option String) : Bool :=
  truthy h && strStartsWith (h.getD "") "Bearer "

def bearerToken (h : Option String) : String :=
  ((h.getD "").drop 7)

def principalOfClaims (d : CustomClaims) : Principal :=
  ⟨d.userId, d.email, d.companyId, d.role⟩

def principalOfUser (u : User) : Principal :=
  ⟨some u.id, u.email, u.company_id, u.role⟩

/-- authenticate: custom JWT first, then Supabase JWT with identity
resolution; 401 when no path succeeds.  Returns the outcome and the
cache/store state after the request. -/
def authenticate (env : AuthEnv) (now : Nat) (req : Req) (cache : Cache)
    (store : Store) : MwOutcome × Cache × Store :=
  if hasBearer req.authorization = true then
    let token := bearerToken req.authorization
    match verifyCustomToken env.verifyCustom token with
    | some d => (.next (some (principalOfClaims d)), cache, store)
    | none =>
      match verifySupabaseToken env.supaConfigured env.verifySupa token with
      | some sp =>
        match resolveSupabaseUser now cache store (sp.sub.getD "") sp.email with
        | (some u, cache', store') =>
          (.next (some (principalOfUser u)), cache', store')
        | (none, cache', store') =>
          (.reject 401 "Invalid or expired token", cache', store')
      | none => (.reject 401 "Invalid or expired token", cache, store)
  else (.reject 401 "No authorization token provided", cache, store)

/-- optionalAuthenticate: same checks, but the no-header case and every
failure case set req.user to null and call next() instead of rejecting. -/
def optionalAuthenticate (env : AuthEnv) (now : Nat) (req : Req)
    (cache : Cache) (store : Store) : MwOutcome × Cache × Store :=
  if hasBearer req.authorization = true then
    let token := bearerToken req.authorization
    match verifyCustomToken env.verifyCustom token with
    | some d => (.next (some (principalOfClaims d)), cache, store)
    | none =>
      match verifySupabaseToken env.supaConfigured env.verifySupa token with
      | some sp =>
        match resolveSupabaseUser now cache store (sp.sub.getD "") sp.email with
        | (some u, cache', store') =>
          (.next (some (principalOfUser u)), cache', store')
        | (none, cache', store') => (.next none, cache', store')
      | none => (.next none, cache, store)
  else (.next none, cache, store)

/-! ## Tenant guard -/

/-- The part of the Express request the guard factories read: the
principal and the params, body and query field maps. -/
structure GuardReq where
  user : Option Principal
  params : String → Option String
  body : String → Option String
  query : String → Option String

/-- The requested company id: params, then body, then query, JS-or
precedence (falsy values fall through). -/
def requestedCompanyId (paramName : String) (req : GuardReq) : Option String :=
  jsOr (req.params paramName) (jsOr (req.body paramName) (req.query paramName))

/-- requireCompanyMatch: 401 without a principal; 403 when a truthy
requested company id differs from the principal companyId; next()
otherwise. -/
def requireCompanyMatch (paramName : String) (req : GuardReq) : MwOutcome :=
  match req.user with
  | none => .reject 401 "Authentication required"
  | some p =>
    let rc := requestedCompanyId paramName req
    if truthy rc = true ∧ rc ≠ p.companyId then
      .reject 403 "Access denied: company mismatch"
    else .next req.user

/-! ## Password-reset cache invalidation (auth.routes POST /auth/reset-password)

After updatePasswordByEmail succeeds the route runs
clearUserCache(user.id) — it passes the local row id, while the identity
cache is keyed by the Supabase subject id. -/

/-- The cache-invalidation step the reset-password route performs for the
user whose password was just changed. -/
def resetPasswordCacheStep (cache : Cache) (user : User) : Cache :=
  clearUserCache cache (some user.id)

/-! ## ServiceTrade API client (per-company session manager)

fetch is embedded as an oracle Nat → FetchResp indexed by a per-process
call counter, together with a log of the requests issued, so that the
theorems can state exactly which network calls an operation performed.
The JSON body of a response is abstracted to the fields the client reads:
the status, the truthiness of (body.data || body).authenticated, the
authToken and user fields of that object, and opaque data and messages
renderings used for the value handed back to the caller. -/

/-- An HTTP response as the ServiceTrade client consumes it. -/
structure FetchResp where
  status : Nat
  dataAuthenticated : Bool
  dataAuthToken : Option String
  dataUser : String
  data : String
  messages : String
  deriving Repr, DecidableEq

/-- A request the client issued: method, url, the PHPSESSID cookie token
if any, and the body if any. -/
structure FetchCall where
  method : String
  url : String
  cookie : Option String
  body : Option String
  deriving Repr, DecidableEq

/-- Module state of the client: the per-company token cache, the fetch
counter, and the log of issued requests. -/
structure StState where
  tokenCache : List (String × String)
  n : Nat
  calls : List FetchCall
  deriving Repr, DecidableEq

/-- Stored ServiceTrade credentials for a company. -/
structure Creds where
  username : String
  password : String
  deriving Repr, DecidableEq

/-- Result of getSession on success. -/
structure Session where
  authenticated : Bool
  authToken : Option String
  user : String
  deriving Repr, DecidableEq

/-- The value request returns to its caller. -/
structure ReqResult where
  ok : Bool
  status : Nat
  data : String
  messages : String
  deriving Repr, DecidableEq

def BASE : String := "https://api.servicetrade.com/api"

/-- Issue one fetch: consume the next oracle response and log the call. -/
def doFetch (oracle : Nat → FetchResp) (st : StState) (c : FetchCall) :
    FetchResp × StState :=
  (oracle st.n, { st with n := st.n + 1, calls := st.calls ++ [c] })

/-- login: POST credentials to /auth; on 200 with authenticated and a
truthy authToken cache the token for the company and return it with the
user; every failure status returns none (the 403, 400 and default
branches differ only in logging). -/
def login (oracle : Nat → FetchResp) (st : StState)
    (companyId username password : String) :
    Option (String × String) × StState :=
  if username = "" ∨ password = "" then (none, st)
  else
    match doFetch oracle st
        ⟨"POST", BASE ++ "/auth", none, some (username ++ ":" ++ password)⟩ with
    | (res, st1) =>
      if res.status = 200 ∧ res.dataAuthenticated = true ∧
          truthy res.dataAuthToken = true then
        let tok := res.dataAuthToken.getD ""
        (some (tok, res.dataUser),
         { st1 with tokenCache := mapSet st1.tokenCache companyId tok })
      else (none, st1)

/-- getSession: validate the explicit or cached token with a GET on
/auth; none with no remote call when there is no token; on 404 evict the
cache entry; on 200-authenticated return the live session; otherwise
return none leaving the cache untouched. -/
def getSession (oracle : Nat → FetchResp) (st : StState)
    (companyId : String) (token : Option String) :
    Option Session × StState :=
  let cached := mapGet st.tokenCache companyId
  let authToken := jsOr token cached
  if truthy authToken = true then
    match doFetch oracle st
        ⟨"GET", BASE ++ "/auth", some (authToken.getD ""), none⟩ with
    | (res, st1) =>
      if res.status = 200 ∧ res.dataAuthenticated = true then
        (some ⟨true, res.dataAuthToken, res.dataUser⟩, st1)
      else if res.status = 404 then
        (none, { st1 with tokenCache := mapDelete st1.tokenCache companyId })
      else (none, st1)
  else (none, st)

/-- ensureSession: the authToken of a live session if getSession
succeeds, else login with the supplied credentials, else none. -/
def ensureSession (oracle : Nat → FetchResp) (st : StState)
    (companyId : String) (credentials : Option Creds) :
    Option String × StState :=
  match getSession oracle st companyId none with
  | (some session, st1) => (session.authToken, st1)
  | (none, st1) =>
    match credentials with
    | none => (none, st1)
    | some c =>
      if c.username = "" ∨ c.password = "" then (none, st1)
      else
        match login oracle st1 companyId c.username c.password with
        | (some r, st2) => (some r.1, st2)
        | (none, st2) => (none, st2)

/-- The url request computes from its path argument. -/
def requestUrl (path : String) : String :=
  if strStartsWith path "http" then path
  else BASE ++ (if strStartsWith path "/" then path else "/" ++ path)

/-- The result request builds from the final response. -/
def mkResult (res : FetchResp) : ReqResult :=
  ⟨200 ≤ res.status ∧ res.status ≤ 299, res.status, res.data, res.messages⟩

/-- The synthetic failure request returns when no session can be
obtained. -/
def notAuthResult : ReqResult :=
  ⟨false, 401, "null", "error: ServiceTrade not authenticated"⟩

/-- request: obtain a session, issue the call; when the response is 401
or 404 and credentials were supplied, evict the cached session, re-login
via ensureSession and, if a token was obtained, re-issue the call once
with the new token; otherwise keep the original response. -/
def request (oracle : Nat → FetchResp) (st : StState)
    (companyId method path : String) (body : Option String)
    (credentials : Option Creds) : ReqResult × StState :=
  match ensureSession oracle st companyId credentials with
  | (token?, st1) =>
    if truthy token? = false then (notAuthResult, st1)
    else
      let url := requestUrl path
      match doFetch oracle st1 ⟨method, url, some (token?.getD ""), body⟩ with
      | (res, st2) =>
        if (res.status = 401 ∨ res.status = 404) ∧ credentials.isSome = true then
          let st3 := { st2 with tokenCache := mapDelete st2.tokenCache companyId }
          match ensureSession oracle st3 companyId credentials with
          | (token2?, st4) =>
            if truthy token2? = true then
              match doFetch oracle st4
                  ⟨method, url, some (token2?.getD ""), body⟩ with
              | (res2, st5) => (mkResult res2, st5)
            else (mkResult res, st4)
        else (mkResult res, st2)

/-! ## Concrete fixtures used by witnesses and counterexamples -/

def sampleUser : User :=
  ⟨"1", some "a@b.c", some "co1", some "admin", none, none⟩

def sampleEntry : CacheEntry := ⟨sampleUser, 0⟩

theorem mapGet_replicate {α : Type} (n : Nat) (k k' : String) (v : α)
    (h : ¬ k = k') : mapGet (List.replicate n (k, v)) k' = none := by
  induction n with
  | zero => rfl
  | succ m ih => simpa [List.replicate, mapGet, if_neg h] using ih

/-! ## Claim theorems -/

/-- Claim C8: verifyCustomToken returns the decoded claims exactly when
the signature check (the jwt.verify oracle) succeeds, the payload type is
access, and both userId and companyId are truthy; every other case,
including a thrown verification error, yields none. -/
theorem verifyCustomToken_spec (verify : String → Except Unit CustomClaims)
    (token : String) (d : CustomClaims) :
    verifyCustomToken verify token = some d ↔
      (verify token = .ok d ∧ d.type = some "access" ∧
       truthy d.userId = true ∧ truthy d.companyId = true) := by
  cases hv : verify token with
  | error e => simp [verifyCustomToken, hv]
  | ok d' =>
    by_cases hc : d'.type = some "access" ∧ truthy d'.userId = true ∧
        truthy d'.companyId = true
    · simp only [verifyCustomToken, hv]
      rw [if_pos hc]
      constructor
      · intro h
        obtain rfl : d' = d := Option.some.inj h
        exact ⟨rfl, hc.1, hc.2.1, hc.2.2⟩
      · intro h
        obtain rfl : d' = d := Except.ok.inj h.1
        rfl
    · simp only [verifyCustomToken, hv]
      rw [if_neg hc]
      constructor
      · intro h
        exact absurd h (by simp)
      · intro h
        obtain rfl : d' = d := Except.ok.inj h.1
        exact absurd ⟨h.2.1, h.2.2.1, h.2.2.2⟩ hc

theorem verifyCustomToken_spec_witness :
    verifyCustomToken
      (fun _ => .ok ⟨some "access", some "u1", some "a@b.c", some "co1", some "admin"⟩)
      "tok" = some ⟨some "access", some "u1", some "a@b.c", some "co1", some "admin"⟩ :=
  (verifyCustomToken_spec _ "tok" _).mpr ⟨rfl, rfl, by decide, by decide⟩

/-- Claim C6: at the capacity bound of 500 entries an insertion removes
exactly the single oldest-inserted (head) entry before inserting, a fresh
key then lands appended with the cache back at exactly 500 entries, and
no cache operation ever pushes the size above 500. -/
theorem identity_cache_capacity (now : Nat) (cache : Cache) (sid : String)
    (u : User) :
    (cache.length = CACHE_MAX_SIZE →
      setCachedUser now cache sid u = mapSet cache.tail sid ⟨u, now⟩)
    ∧ (cache.length = CACHE_MAX_SIZE → mapGet cache sid = none →
      setCachedUser now cache sid u = cache.tail ++ [(sid, ⟨u, now⟩)] ∧
      (setCachedUser now cache sid u).length = CACHE_MAX_SIZE)
    ∧ (cache.length ≤ CACHE_MAX_SIZE →
      (setCachedUser now cache sid u).length ≤ CACHE_MAX_SIZE)
    ∧ ((getCachedUser now cache sid).2.length ≤ cache.length)
    ∧ (∀ o, (clearUserCache cache o).length ≤ cache.length) := by
  have hdel : ∀ (m : Cache), m.length = CACHE_MAX_SIZE →
      setCachedUser now m sid u = mapSet m.tail sid ⟨u, now⟩ := by
    intro m hm
    cases m with
    | nil => simp [CACHE_MAX_SIZE] at hm
    | cons hd tl =>
      obtain ⟨k0, e0⟩ := hd
      simp only [setCachedUser, hm, le_refl, if_pos, mapDelete, if_pos rfl,
        List.tail_cons]
  refine ⟨hdel cache, ?_, ?_, ?_, ?_⟩
  · intro hm hget
    cases hc : cache with
    | nil => rw [hc] at hm; simp [CACHE_MAX_SIZE] at hm
    | cons hd tl =>
      obtain ⟨k0, e0⟩ := hd
      subst hc
      have htl : mapGet tl sid = none := by
        simp only [mapGet] at hget
        by_cases hk : k0 = sid
        · rw [if_pos hk] at hget; exact absurd hget (by simp)
        · rwa [if_neg hk] at hget
      have h1 := hdel ((k0, e0) :: tl) hm
      rw [List.tail_cons] at h1
      rw [h1, mapSet_of_not_mem tl sid _ htl]
      refine ⟨rfl, ?_⟩
      simp only [List.length_append, List.length_singleton]
      simp only [List.length_cons] at hm
      omega
  · intro hle
    by_cases hcap : CACHE_MAX_SIZE ≤ cache.length
    · have hm : cache.length = CACHE_MAX_SIZE := le_antisymm hle hcap
      rw [hdel cache hm]
      have := mapSet_length cache.tail sid (⟨u, now⟩ : CacheEntry)
      have htl : cache.tail.length + 1 ≤ CACHE_MAX_SIZE := by
        cases cache with
        | nil => simp [CACHE_MAX_SIZE] at hm
        | cons hd tl => simp only [List.length_cons] at hm; simp [hm.symm.le]; omega
      omega
    · push_neg at hcap
      simp only [setCachedUser, if_neg (by omega : ¬ CACHE_MAX_SIZE ≤ cache.length)]
      have := mapSet_length cache sid (⟨u, now⟩ : CacheEntry)
      omega
  · unfold getCachedUser
    cases hget : mapGet cache sid with
    | none => simp
    | some e =>
      by_cases hexp : now - e.timestamp > CACHE_TTL_MS
      · simp only [if_pos hexp]
        exact mapDelete_length cache sid
      · simp only [if_neg hexp]
        exact le_rfl
  · intro o
    unfold clearUserCache
    by_cases ho : truthy o = true
    · rw [if_pos ho]
      exact mapDelete_length cache _
    · rw [if_neg ho]
      simp

theorem identity_cache_capacity_witness :
    setCachedUser 7 (List.replicate 500 ("k", sampleEntry)) "fresh" sampleUser =
      (List.replicate 500 ("k", sampleEntry)).tail ++
        [("fresh", ⟨sampleUser, 7⟩)] ∧
    (setCachedUser 7 (List.replicate 500 ("k", sampleEntry)) "fresh"
        sampleUser).length = CACHE_MAX_SIZE :=
  (identity_cache_capacity 7 (List.replicate 500 ("k", sampleEntry)) "fresh"
      sampleUser).2.1
    (by simp [CACHE_MAX_SIZE])
    (mapGet_replicate 500 "k" "fresh" sampleEntry (by decide))

/-- Claim C7: requireCompanyMatch rejects with 403 exactly when a truthy
requested company id (read with params-body-query precedence) differs
from the principal companyId; with a principal and no such field it
always calls next(); the requested id is sourced with the stated
precedence. -/
theorem requireCompanyMatch_spec (paramName : String) (req : GuardReq) :
    (∀ p, req.user = some p →
      ((requireCompanyMatch paramName req =
          .reject 403 "Access denied: company mismatch") ↔
        (truthy (requestedCompanyId paramName req) = true ∧
         requestedCompanyId paramName req ≠ p.companyId)))
    ∧ (∀ p, req.user = some p →
        truthy (requestedCompanyId paramName req) = false →
        requireCompanyMatch paramName req = .next (some p))
    ∧ (req.user = none →
        requireCompanyMatch paramName req = .reject 401 "Authentication required")
    ∧ (truthy (req.params paramName) = true →
        requestedCompanyId paramName req = req.params paramName)
    ∧ (truthy (req.params paramName) = false →
        truthy (req.body paramName) = true →
        requestedCompanyId paramName req = req.body paramName)
    ∧ (truthy (req.params paramName) = false →
        truthy (req.body paramName) = false →
        requestedCompanyId paramName req = req.query paramName) := by
  refine ⟨?_, ?_, ?_, ?_, ?_, ?_⟩
  · intro p hp
    simp only [requireCompanyMatch, hp]
    by_cases hc : truthy (requestedCompanyId paramName req) = true ∧
        requestedCompanyId paramName req ≠ p.companyId
    · rw [if_pos hc]
      simp [hc]
    · rw [if_neg hc]
      simp only [iff_false_intro hc, iff_false]
      intro h
      exact absurd h (by simp)
  · intro p hp hf
    simp only [requireCompanyMatch, hp]
    rw [if_neg (by simp [hf])]
  · intro hp
    simp only [requireCompanyMatch, hp]
  · intro h1
    simp only [requestedCompanyId, jsOr, h1, if_pos]
  · intro h1 h2
    simp only [requestedCompanyId, jsOr, h1, h2]
    simp
  · intro h1 h2
    simp only [requestedCompanyId, jsOr, h1, h2]
    simp

theorem requireCompanyMatch_spec_witness :
    requireCompanyMatch "companyId"
      ⟨some ⟨some "u1", some "a@b.c", some "co1", some "admin"⟩,
       fun k => if k = "companyId" then some "co2" else none,
       fun _ => none, fun _ => none⟩ =
      .reject 403 "Access denied: company mismatch" :=
  ((requireCompanyMatch_spec "companyId" _).1 _ rfl).mpr (by decide)

/-- Claim C4 (code bug): the reset-password route invalidates the
identity cache with the local row id, but the cache is keyed by the
Supabase subject id, so the pre-reset snapshot keyed by the subject id
survives and a subsequent resolve still serves it, including the
superseded password hash. -/
theorem resetPassword_stale_cache :
    resetPasswordCacheStep
        [("sub-1", ⟨⟨"7", some "x@y.z", some "co1", some "member",
            some "sub-1", some "oldhash"⟩, 0⟩)]
        ⟨"7", some "x@y.z", some "co1", some "member", some "sub-1",
          some "oldhash"⟩ =
      [("sub-1", ⟨⟨"7", some "x@y.z", some "co1", some "member",
          some "sub-1", some "oldhash"⟩, 0⟩)] ∧
    (resolveSupabaseUser 1000
        (resetPasswordCacheStep
          [("sub-1", ⟨⟨"7", some "x@y.z", some "co1", some "member",
              some "sub-1", some "oldhash"⟩, 0⟩)]
          ⟨"7", some "x@y.z", some "co1", some "member", some "sub-1",
            some "oldhash"⟩)
        ⟨[⟨"7", some "x@y.z", some "co1", some "member", some "sub-1",
            some "newhash"⟩], 0, []⟩
        "sub-1" none).1 =
      some ⟨"7", some "x@y.z", some "co1", some "member", some "sub-1",
        some "oldhash"⟩ := by
  decide

/-- Claim C1: authenticate tries the local token check first, then the
external check, with the stated terminal outcomes: no Bearer header is a
401; a locally verified token attaches the claims fields directly with
the cache and store untouched (no user-store read); an externally
verified token attaches the resolved user when the resolver returns one
and is a 401 when it returns none; a token failing both checks is a
401. -/
theorem authenticate_spec (env : AuthEnv) (now : Nat) (req : Req)
    (cache : Cache) (store : Store) :
    (hasBearer req.authorization = false →
      authenticate env now req cache store =
        (.reject 401 "No authorization token provided", cache, store))
    ∧ (∀ d, hasBearer req.authorization = true →
        verifyCustomToken env.verifyCustom (bearerToken req.authorization) =
          some d →
        authenticate env now req cache store =
          (.next (some (principalOfClaims d)), cache, store))
    ∧ (∀ sp u cache' store', hasBearer req.authorization = true →
        verifyCustomToken env.verifyCustom (bearerToken req.authorization) =
          none →
        verifySupabaseToken env.supaConfigured env.verifySupa
          (bearerToken req.authorization) = some sp →
        resolveSupabaseUser now cache store (sp.sub.getD "") sp.email =
          (some u, cache', store') →
        authenticate env now req cache store =
          (.next (some (principalOfUser u)), cache', store'))
    ∧ (∀ sp cache' store', hasBearer req.authorization = true →
        verifyCustomToken env.verifyCustom (bearerToken req.authorization) =
          none →
        verifySupabaseToken env.supaConfigured env.verifySupa
          (bearerToken req.authorization) = some sp →
        resolveSupabaseUser now cache store (sp.sub.getD "") sp.email =
          (none, cache', store') →
        authenticate env now req cache store =
          (.reject 401 "Invalid or expired token", cache', store'))
    ∧ (hasBearer req.authorization = true →
        verifyCustomToken env.verifyCustom (bearerToken req.authorization) =
          none →
        verifySupabaseToken env.supaConfigured env.verifySupa
          (bearerToken req.authorization) = none →
        authenticate env now req cache store =
          (.reject 401 "Invalid or expired token", cache, store)) := by
  refine ⟨?_, ?_, ?_, ?_, ?_⟩
  · intro hb
    simp [authenticate, hb]
  · intro d hb hcu
    simp [authenticate, hb, hcu]
  · intro sp u cache' store' hb hcu hsu hres
    simp [authenticate, hb, hcu, hsu, hres]
  · intro sp cache' store' hb hcu hsu hres
    simp [authenticate, hb, hcu, hsu, hres]
  · intro hb hcu hsu
    simp [authenticate, hb, hcu, hsu]

theorem authenticate_spec_witness :
    authenticate ⟨fun _ => .error (), false, fun _ => .error ()⟩ 0 ⟨none⟩ []
        ⟨[], 0, []⟩ =
      (.reject 401 "No authorization token provided", [], ⟨[], 0, []⟩) :=
  (authenticate_spec ⟨fun _ => .error (), false, fun _ => .error ()⟩ 0 ⟨none⟩
      [] ⟨[], 0, []⟩).1 (by decide)

/-- Claim C9: optionalAuthenticate agrees with authenticate, state
included, on every request authenticate lets proceed, never rejects, and
turns every rejection of authenticate into next() with an absent
principal and the same cache and store state. -/
theorem optionalAuthenticate_refines (env : AuthEnv) (now : Nat) (req : Req)
    (cache : Cache) (store : Store) :
    (∀ u c s, authenticate env now req cache store = (.next u, c, s) →
      optionalAuthenticate env now req cache store = (.next u, c, s))
    ∧ (∀ st' m c s,
        authenticate env now req cache store = (.reject st' m, c, s) →
        optionalAuthenticate env now req cache store = (.next none, c, s))
    ∧ (∀ st' m c s,
        optionalAuthenticate env now req cache store ≠ (.reject st' m, c, s)) := by
  by_cases hb : hasBearer req.authorization = true
  · cases hcu : verifyCustomToken env.verifyCustom (bearerToken req.authorization) with
    | some d =>
      refine ⟨?_, ?_, ?_⟩ <;> intro _ _ _ _ <;>
        simp_all [authenticate, optionalAuthenticate, hb, hcu]
    | none =>
      cases hsu : verifySupabaseToken env.supaConfigured env.verifySupa
          (bearerToken req.authorization) with
      | some sp =>
        rcases hres : resolveSupabaseUser now cache store (sp.sub.getD "")
            sp.email with ⟨u?, cache', store'⟩
        cases u? with
        | some u =>
          refine ⟨?_, ?_, ?_⟩ <;> intro _ _ _ _ <;>
            simp_all [authenticate, optionalAuthenticate, hb, hcu, hsu, hres]
        | none =>
          refine ⟨?_, ?_, ?_⟩ <;> intro _ _ _ _ <;>
            simp_all [authenticate, optionalAuthenticate, hb, hcu, hsu, hres]
      | none =>
        refine ⟨?_, ?_, ?_⟩ <;> intro _ _ _ _ <;>
          simp_all [authenticate, optionalAuthenticate, hb, hcu, hsu]
  · refine ⟨?_, ?_, ?_⟩ <;> intro _ _ _ _ <;>
      simp_all [authenticate, optionalAuthenticate, hb]

theorem optionalAuthenticate_refines_witness :
    optionalAuthenticate ⟨fun _ => .error (), false, fun _ => .error ()⟩ 0
        ⟨some "Bearer bad"⟩ [] ⟨[], 0, []⟩ =
      (.next none, [], ⟨[], 0, []⟩) :=
  (optionalAuthenticate_refines ⟨fun _ => .error (), false, fun _ => .error ()⟩
      0 ⟨some "Bearer bad"⟩ [] ⟨[], 0, []⟩).2.1 401
    "Invalid or expired token" [] ⟨[], 0, []⟩ (by decide)

/-! ## Branch lemmas for resolveSupabaseUser, shared by the resolver
claims -/

theorem resolve_hit (now : Nat) (cache : Cache) (store : Store) (sid : String)
    (email : Option String) (e : CacheEntry) (h : mapGet cache sid = some e)
    (hfresh : ¬ now - e.timestamp > CACHE_TTL_MS) :
    resolveSupabaseUser now cache store sid email = (some e.user, cache, store) := by
  simp only [resolveSupabaseUser, getCachedUser, h, if_neg hfresh]

theorem resolve_by_sid (now : Nat) (cache : Cache) (store : Store)
    (sid : String) (email : Option String) (u : User)
    (h1 : (getCachedUser now cache sid).1 = none)
    (h2 : store.users.find? (fun v => v.supabase_id = some sid) = some u) :
    resolveSupabaseUser now cache store sid email =
      (some u, setCachedUser now (getCachedUser now cache sid).2 sid u,
       { store with reads := store.reads + 1 }) := by
  rcases hg : getCachedUser now cache sid with ⟨r, c1⟩
  rw [hg] at h1
  simp only at h1
  subst h1
  simp only [resolveSupabaseUser, hg, getUserBySupabaseId, h2]

theorem resolve_email_link (now : Nat) (cache : Cache) (store : Store)
    (sid em : String) (ue : User)
    (h1 : (getCachedUser now cache sid).1 = none)
    (h2 : store.users.find? (fun v => v.supabase_id = some sid) = none)
    (hem : em ≠ "")
    (h3 : store.users.find? (fun v => v.email = some em) = some ue)
    (h4 : truthy ue.supabase_id = false) :
    resolveSupabaseUser now cache store sid (some em) =
      (some { ue with supabase_id := some sid },
       setCachedUser now (getCachedUser now cache sid).2 sid
         { ue with supabase_id := some sid },
       updateSupabaseId { store with reads := store.reads + 2 } ue.id sid) := by
  rcases hg : getCachedUser now cache sid with ⟨r, c1⟩
  rw [hg] at h1
  simp only at h1
  subst h1
  simp only [resolveSupabaseUser, hg, getUserBySupabaseId, h2,
    if_pos (by simp [truthy, hem] : truthy (some em) = true), Option.getD,
    getUserByEmail, h3, h4]
  rfl

theorem resolve_email_already_linked (now : Nat) (cache : Cache)
    (store : Store) (sid em : String) (ue : User)
    (h1 : (getCachedUser now cache sid).1 = none)
    (h2 : store.users.find? (fun v => v.supabase_id = some sid) = none)
    (hem : em ≠ "")
    (h3 : store.users.find? (fun v => v.email = some em) = some ue)
    (h4 : truthy ue.supabase_id = true) :
    resolveSupabaseUser now cache store sid (some em) =
      (some ue, setCachedUser now (getCachedUser now cache sid).2 sid ue,
       { store with reads := store.reads + 2 }) := by
  rcases hg : getCachedUser now cache sid with ⟨r, c1⟩
  rw [hg] at h1
  simp only at h1
  subst h1
  simp only [resolveSupabaseUser, hg, getUserBySupabaseId, h2,
    if_pos (by simp [truthy, hem] : truthy (some em) = true), Option.getD,
    getUserByEmail, h3, h4]
  rfl

theorem resolve_no_email (now : Nat) (cache : Cache) (store : Store)
    (sid : String) (email : Option String)
    (h1 : (getCachedUser now cache sid).1 = none)
    (h2 : store.users.find? (fun v => v.supabase_id = some sid) = none)
    (he : truthy email = false) :
    resolveSupabaseUser now cache store sid email =
      (none, (getCachedUser now cache sid).2,
       { store with reads := store.reads + 1 }) := by
  rcases hg : getCachedUser now cache sid with ⟨r, c1⟩
  rw [hg] at h1
  simp only at h1
  subst h1
  simp only [resolveSupabaseUser, hg, getUserBySupabaseId, h2, he,
    if_neg (by simp : ¬ (false = true))]

theorem resolve_email_miss (now : Nat) (cache : Cache) (store : Store)
    (sid em : String)
    (h1 : (getCachedUser now cache sid).1 = none)
    (h2 : store.users.find? (fun v => v.supabase_id = some sid) = none)
    (hem : em ≠ "")
    (h3 : store.users.find? (fun v => v.email = some em) = none) :
    resolveSupabaseUser now cache store sid (some em) =
      (none, (getCachedUser now cache sid).2,
       { store with reads := store.reads + 2 }) := by
  rcases hg : getCachedUser now cache sid with ⟨r, c1⟩
  rw [hg] at h1
  simp only at h1
  subst h1
  simp only [resolveSupabaseUser, hg, getUserBySupabaseId, h2,
    if_pos (by simp [truthy, hem] : truthy (some em) = true), Option.getD,
    getUserByEmail, h3]

/-- Claim C2 (amended: a cache entry is served as long as its age is at
most the TTL; the store path runs only when the entry is strictly older):
resolve serves a cache hit with no store access, otherwise queries by
supabase id, then by email when an email hint is supplied, linking
(externalAuthId := subject id) exactly when the email-matched record has
no truthy supabase id, caching and returning the possibly updated record,
and returns none when no path matches. -/
theorem resolveSupabaseUser_spec (now : Nat) (cache : Cache) (store : Store)
    (sid : String) (email : Option String) :
    (∀ e, mapGet cache sid = some e → now - e.timestamp ≤ CACHE_TTL_MS →
      resolveSupabaseUser now cache store sid email =
        (some e.user, cache, store))
    ∧ (∀ u, (getCachedUser now cache sid).1 = none →
        store.users.find? (fun v => v.supabase_id = some sid) = some u →
        resolveSupabaseUser now cache store sid email =
          (some u, setCachedUser now (getCachedUser now cache sid).2 sid u,
           { store with reads := store.reads + 1 }))
    ∧ (∀ em ue, (getCachedUser now cache sid).1 = none →
        store.users.find? (fun v => v.supabase_id = some sid) = none →
        email = some em → em ≠ "" →
        store.users.find? (fun v => v.email = some em) = some ue →
        truthy ue.supabase_id = false →
        resolveSupabaseUser now cache store sid email =
          (some { ue with supabase_id := some sid },
           setCachedUser now (getCachedUser now cache sid).2 sid
             { ue with supabase_id := some sid },
           updateSupabaseId { store with reads := store.reads + 2 } ue.id sid))
    ∧ (∀ em ue, (getCachedUser now cache sid).1 = none →
        store.users.find? (fun v => v.supabase_id = some sid) = none →
        email = some em → em ≠ "" →
        store.users.find? (fun v => v.email = some em) = some ue →
        truthy ue.supabase_id = true →
        resolveSupabaseUser now cache store sid email =
          (some ue, setCachedUser now (getCachedUser now cache sid).2 sid ue,
           { store with reads := store.reads + 2 }))
    ∧ ((getCachedUser now cache sid).1 = none →
        store.users.find? (fun v => v.supabase_id = some sid) = none →
        truthy email = false →
        resolveSupabaseUser now cache store sid email =
          (none, (getCachedUser now cache sid).2,
           { store with reads := store.reads + 1 }))
    ∧ (∀ em, (getCachedUser now cache sid).1 = none →
        store.users.find? (fun v => v.supabase_id = some sid) = none →
        email = some em → em ≠ "" →
        store.users.find? (fun v => v.email = some em) = none →
        resolveSupabaseUser now cache store sid email =
          (none, (getCachedUser now cache sid).2,
           { store with reads := store.reads + 2 })) := by
  refine ⟨?_, ?_, ?_, ?_, ?_, ?_⟩
  · intro e h hle
    exact resolve_hit now cache store sid email e h (by omega)
  · intro u h1 h2
    exact resolve_by_sid now cache store sid email u h1 h2
  · intro em ue h1 h2 hem1 hem2 h3 h4
    subst hem1
    exact resolve_email_link now cache store sid em ue h1 h2 hem2 h3 h4
  · intro em ue h1 h2 hem1 hem2 h3 h4
    subst hem1
    exact resolve_email_already_linked now cache store sid em ue h1 h2 hem2 h3 h4
  · intro h1 h2 he
    exact resolve_no_email now cache store sid email h1 h2 he
  · intro em h1 h2 hem1 hem2 h3
    subst hem1
    exact resolve_email_miss now cache store sid em h1 h2 hem2 h3

theorem resolveSupabaseUser_spec_witness :
    resolveSupabaseUser 1 [("s", ⟨sampleUser, 0⟩)] ⟨[], 0, []⟩ "s" none =
      (some sampleUser, [("s", ⟨sampleUser, 0⟩)], ⟨[], 0, []⟩) :=
  (resolveSupabaseUser_spec 1 [("s", ⟨sampleUser, 0⟩)] ⟨[], 0, []⟩ "s"
      none).1 ⟨sampleUser, 0⟩ (by decide) (by decide)

/-- Claim C2, counterexample to the statement as written: at age exactly
five minutes (not under five minutes) the code still serves the cached
snapshot with no store access, even when the store holds a different
record for the same subject id. -/
theorem resolveSupabaseUser_ttl_boundary :
    resolveSupabaseUser CACHE_TTL_MS
        [("s", ⟨⟨"1", some "a@b.c", some "co1", some "admin", some "s",
            some "h1"⟩, 0⟩)]
        ⟨[⟨"1", some "a@b.c", some "co1", some "admin", some "s", some "h2"⟩],
          0, []⟩ "s" none =
      (some ⟨"1", some "a@b.c", some "co1", some "admin", some "s", some "h1"⟩,
       [("s", ⟨⟨"1", some "a@b.c", some "co1", some "admin", some "s",
           some "h1"⟩, 0⟩)],
       ⟨[⟨"1", some "a@b.c", some "co1", some "admin", some "s", some "h2"⟩],
         0, []⟩) ∧
    (⟨"1", some "a@b.c", some "co1", some "admin", some "s", some "h1"⟩ : User) ≠
      ⟨"1", some "a@b.c", some "co1", some "admin", some "s", some "h2"⟩ := by
  decide

/-- Claim C10: when the subject id misses both the cache and the store
but the email hint matches a user already linked to a different subject
id, resolve returns that user unchanged, caches it under the new subject
id without any link write, and the account stays resolvable from the old
subject id as well. -/
theorem resolveSupabaseUser_second_subject (now : Nat) (cache : Cache)
    (store : Store) (sid em other : String) (u : User)
    (h1 : (getCachedUser now cache sid).1 = none)
    (h2 : store.users.find? (fun v => v.supabase_id = some sid) = none)
    (hem : em ≠ "")
    (h3 : store.users.find? (fun v => v.email = some em) = some u)
    (h4 : u.supabase_id = some other) (ho : other ≠ "") :
    resolveSupabaseUser now cache store sid (some em) =
      (some u, setCachedUser now (getCachedUser now cache sid).2 sid u,
       { store with reads := store.reads + 2 }) ∧
    ({ store with reads := store.reads + 2 } : Store).users = store.users ∧
    ({ store with reads := store.reads + 2 } : Store).links = store.links ∧
    (store.users.find? (fun v => v.supabase_id = some other) = some u →
      (resolveSupabaseUser now [] { store with reads := store.reads + 2 }
          other none).1 = some u) := by
  have htr : truthy u.supabase_id = true := by simp [h4, truthy, ho]
  refine ⟨resolve_email_already_linked now cache store sid em u h1 h2 hem h3 htr,
    rfl, rfl, ?_⟩
  intro hfind
  have := resolve_by_sid now [] { store with reads := store.reads + 2 } other
    none u (by simp [getCachedUser, mapGet]) (by simpa using hfind)
  simp [this]

theorem resolveSupabaseUser_second_subject_witness :
    resolveSupabaseUser 5 []
        ⟨[⟨"1", some "a@b.c", some "co1", some "admin", some "old-sub",
            some "h"⟩], 0, []⟩ "new-sub" (some "a@b.c") =
      (some ⟨"1", some "a@b.c", some "co1", some "admin", some "old-sub",
         some "h"⟩,
       [("new-sub", ⟨⟨"1", some "a@b.c", some "co1", some "admin",
           some "old-sub", some "h"⟩, 5⟩)],
       ⟨[⟨"1", some "a@b.c", some "co1", some "admin", some "old-sub",
           some "h"⟩], 2, []⟩) :=
  (resolveSupabaseUser_second_subject 5 []
      ⟨[⟨"1", some "a@b.c", some "co1", some "admin", some "old-sub",
          some "h"⟩], 0, []⟩ "new-sub" "a@b.c" "old-sub"
      ⟨"1", some "a@b.c", some "co1", some "admin", some "old-sub", some "h"⟩
      (by decide) (by decide) (by decide) (by decide) (by decide)
      (by decide)).1

/-- Claim C5 (amended: the cache entry is evicted only when the remote
reports not-found (404); a not-authenticated report returns none with the
entry left in place): getSession returns none without any remote call
when neither an explicit nor a cached token is present; with a token it
issues one GET, returns the live session on 200-authenticated, evicts and
returns none on 404, and returns none leaving the cache untouched
otherwise. -/
theorem getSession_spec (oracle : Nat → FetchResp) (st : StState)
    (companyId : String) (token : Option String) :
    (truthy (jsOr token (mapGet st.tokenCache companyId)) = false →
      getSession oracle st companyId token = (none, st))
    ∧ (∀ t, jsOr token (mapGet st.tokenCache companyId) = some t → t ≠ "" →
        ((oracle st.n).status = 200 ∧ (oracle st.n).dataAuthenticated = true →
          getSession oracle st companyId token =
            (some ⟨true, (oracle st.n).dataAuthToken, (oracle st.n).dataUser⟩,
             { st with
               n := st.n + 1,
               calls := st.calls ++ [⟨"GET", BASE ++ "/auth", some t, none⟩] }))
        ∧ (¬((oracle st.n).status = 200 ∧ (oracle st.n).dataAuthenticated = true) →
            (oracle st.n).status = 404 →
          getSession oracle st companyId token =
            (none,
             { tokenCache := mapDelete st.tokenCache companyId,
               n := st.n + 1,
               calls := st.calls ++ [⟨"GET", BASE ++ "/auth", some t, none⟩] }))
        ∧ (¬((oracle st.n).status = 200 ∧ (oracle st.n).dataAuthenticated = true) →
            (oracle st.n).status ≠ 404 →
          getSession oracle st companyId token =
            (none,
             { st with
               n := st.n + 1,
               calls := st.calls ++ [⟨"GET", BASE ++ "/auth", some t, none⟩] }))) := by
  constructor
  · intro hf
    simp only [getSession, hf]
    simp
  · intro t hjs ht
    have htr : truthy (some t) = true := by simp [truthy, ht]
    refine ⟨?_, ?_, ?_⟩
    · intro hok
      simp only [getSession, hjs, htr, doFetch, Option.getD_some]
      rw [if_pos trivial, if_pos hok]
    · intro hnot h404
      simp only [getSession, hjs, htr, doFetch, Option.getD_some]
      rw [if_pos trivial, if_neg hnot, if_pos h404]
    · intro hnot hne
      simp only [getSession, hjs, htr, doFetch, Option.getD_some]
      rw [if_pos trivial, if_neg hnot, if_neg hne]

theorem getSession_spec_witness :
    getSession (fun _ => ⟨404, false, none, "u", "d", "m"⟩)
        ⟨[("c", "t0")], 0, []⟩ "c" none =
      (none,
       ⟨mapDelete ([("c", "t0")] : List (String × String)) "c", 1,
        [] ++ [⟨"GET", BASE ++ "/auth", some "t0", none⟩]⟩) :=
  (((getSession_spec (fun _ => ⟨404, false, none, "u", "d", "m"⟩)
      ⟨[("c", "t0")], 0, []⟩ "c" none).2 "t0" (by decide)
      (by decide)).2.1 (by decide) (by decide))

/-- Claim C5, counterexample to the statement as written: a remote
not-authenticated report (here a 401) makes getSession return none but
the cached token for the company is not evicted. -/
theorem getSession_notauth_keeps_cache :
    (getSession (fun _ => ⟨401, false, none, "u", "d", "m"⟩)
        ⟨[("c", "t0")], 0, []⟩ "c" none).1 = none ∧
    mapGet (getSession (fun _ => ⟨401, false, none, "u", "d", "m"⟩)
        ⟨[("c", "t0")], 0, []⟩ "c" none).2.tokenCache "c" = some "t0" := by
  decide

/-- Claim C3: for every execution of request in which a session was
obtained (by whichever path ensureSession took: live cached session or
fresh login), the original call was answered 401 or 404, and credentials
were supplied: the cached session for the company is evicted before the
second ensureSession runs (its state carries mapDelete of the token
cache); that second ensureSession on the evicted cache is exactly one
fresh login attempt issuing a single POST to /auth; when it yields a
truthy token the original call is re-issued exactly once with that token
and its response is returned; when it yields none or a falsy token the
original stale-session response is returned unmodified with no further
network call.  The two result conclusions exhaust every such execution,
so no execution retries the original call more than once. -/
theorem request_retry_spec (oracle : Nat → FetchResp) (st : StState)
    (companyId method path : String) (body : Option String) (c : Creds)
    (t : String) (st1 : StState)
    (hens : ensureSession oracle st companyId (some c) = (some t, st1))
    (ht : ¬ t = "")
    (hr1 : (oracle st1.n).status = 401 ∨ (oracle st1.n).status = 404) :
    (∀ t2 st4,
      ensureSession oracle
          ⟨mapDelete st1.tokenCache companyId, st1.n + 1,
           st1.calls ++ [⟨method, requestUrl path, some t, body⟩]⟩
          companyId (some c) = (some t2, st4) →
      ¬ t2 = "" →
      request oracle st companyId method path body (some c) =
        (mkResult (oracle st4.n),
         { st4 with
           n := st4.n + 1,
           calls := st4.calls ++
             [⟨method, requestUrl path, some t2, body⟩] }))
    ∧ (∀ tok2? st4,
      ensureSession oracle
          ⟨mapDelete st1.tokenCache companyId, st1.n + 1,
           st1.calls ++ [⟨method, requestUrl path, some t, body⟩]⟩
          companyId (some c) = (tok2?, st4) →
      truthy tok2? = false →
      request oracle st companyId method path body (some c) =
        (mkResult (oracle st1.n), st4))
    ∧ (∀ stE : StState, mapGet stE.tokenCache companyId = none →
      ¬ c.username = "" → ¬ c.password = "" →
      ensureSession oracle stE companyId (some c) =
        ((login oracle stE companyId c.username c.password).1.map Prod.fst,
         (login oracle stE companyId c.username c.password).2))
    ∧ (∀ stE : StState, ¬ c.username = "" → ¬ c.password = "" →
      (login oracle stE companyId c.username c.password).2.calls =
        stE.calls ++ [⟨"POST", BASE ++ "/auth", none,
          some (c.username ++ ":" ++ c.password)⟩] ∧
      (login oracle stE companyId c.username c.password).2.n = stE.n + 1) := by
  have htr : truthy (some t) = true := by simp [truthy, ht]
  refine ⟨?_, ?_, ?_, ?_⟩
  · intro t2 st4 h2 ht2
    have htr2 : truthy (some t2) = true := by simp [truthy, ht2]
    simp only [request, hens, htr, doFetch, Option.getD_some]
    rw [if_neg (by simp)]
    rw [if_pos ⟨hr1, rfl⟩]
    rw [h2]
    rw [if_pos htr2]
    simp only [doFetch, Option.getD_some]
  · intro tok2? st4 h2 hf
    simp only [request, hens, htr, doFetch, Option.getD_some]
    rw [if_neg (by simp)]
    rw [if_pos ⟨hr1, rfl⟩]
    rw [h2]
    rw [if_neg (by simp [hf])]
  · intro stE hm hcu hcp
    have hgE : getSession oracle stE companyId none = (none, stE) := by
      simp [getSession, jsOr, truthy, hm]
    rcases hl : login oracle stE companyId c.username c.password with ⟨r?, s⟩
    cases r? with
    | some r => simp [ensureSession, hgE, hl, hcu, hcp]
    | none => simp [ensureSession, hgE, hl, hcu, hcp]
  · intro stE hcu hcp
    simp only [login, doFetch]
    rw [if_neg (by simp [hcu, hcp])]
    by_cases hres : (oracle stE.n).status = 200 ∧
        (oracle stE.n).dataAuthenticated = true ∧
        truthy (oracle stE.n).dataAuthToken = true
    · rw [if_pos hres]
      exact ⟨rfl, rfl⟩
    · rw [if_neg hres]
      exact ⟨rfl, rfl⟩

/-- A concrete fetch trace: session check ok, original call 401, login
ok with a new token, retried call ok. -/
def oracleRetry : Nat → FetchResp := fun n =>
  if n = 0 then ⟨200, true, some "t1", "u0", "d0", "m0"⟩
  else if n = 1 then ⟨401, false, none, "u1", "d1", "m1"⟩
  else if n = 2 then ⟨200, true, some "t2", "u2", "d2", "m2"⟩
  else ⟨200, true, none, "u3", "d3", "m3"⟩

theorem request_retry_spec_witness :
    request oracleRetry ⟨[("c", "t0")], 0, []⟩ "c" "GET" "/job/1" none
        (some ⟨"user", "pass"⟩) =
      (mkResult (oracleRetry 3),
       { tokenCache :=
           mapSet (mapDelete [("c", "t0")] "c") "c" "t2",
         n := 4,
         calls :=
           [⟨"GET", BASE ++ "/auth", some "t0", none⟩,
            ⟨"GET", requestUrl "/job/1", some "t1", none⟩,
            ⟨"POST", BASE ++ "/auth", none, some ("user" ++ ":" ++ "pass")⟩] ++
           [⟨"GET", requestUrl "/job/1", some "t2", none⟩] }) := by
  exact (request_retry_spec oracleRetry ⟨[("c", "t0")], 0, []⟩ "c" "GET"
      "/job/1" none ⟨"user", "pass"⟩ "t1"
      ⟨[("c", "t0")], 1, [⟨"GET", BASE ++ "/auth", some "t0", none⟩]⟩
      (by decide) (by decide) (by decide)).1 "t2"
    ⟨mapSet (mapDelete [("c", "t0")] "c") "c" "t2", 3,
     [⟨"GET", BASE ++ "/auth", some "t0", none⟩,
      ⟨"GET", requestUrl "/job/1", some "t1", none⟩,
      ⟨"POST", BASE ++ "/auth", none, some ("user" ++ ":" ++ "pass")⟩]⟩
    (by decide) (by decide)

end ClaraConfirms
